import Mathlib

/-!
Verification of the CarTunes egui frame orchestration component.

Shallow embedding of `src/framework.rs` (the `Framework` struct and its
methods, plus the free function `install_fonts`) and of the redraw branch of
the event loop in `src/main.rs`.

Modelling conventions:
* `u32` window dimensions become `Nat` (no arithmetic is performed on them,
  only storage, so no overflow can matter).
* `f32` values (scale factor, font sizes, stroke widths) become `Rat`; the
  code only stores and copies them, never computes with them.
* The egui library is an external collaborator.  Its stock values
  (`Visuals::dark()`, `Visuals::light()`, `Style::default()`,
  `FontDefinitions::default()`) are parameters, collected in `EguiEnv`, so
  every theorem quantifies over arbitrary stock palettes and font defaults.
* egui `BTreeMap`s become functions into `Option`; `get_mut` followed by a
  mutation becomes a functional update at the key when the lookup succeeds.
* The egui context (`CtxRef`) holds the ambient style and font definitions;
  it is modelled as the `Ctx` record stored inside `Framework`.
* The per frame toolkit pipeline (`begin_frame` / `Gui::ui` / `end_frame` /
  `tessellate`) accumulates shapes inside the toolkit; it is modelled by two
  function parameters: `gui`, producing the frame paint commands from the
  context it observes, and `tess`, tessellating those commands in a context.
* `Instant` / `update_time` feed wall clock time to the toolkit and touch no
  modelled state, so they are not represented.
-/

/-- Color value, egui `Color32` (four `u8` channels). -/
structure Color32 where
  r : Nat
  g : Nat
  b : Nat
  a : Nat
deriving DecidableEq

/-- Solid black, egui `Color32::BLACK`. -/
def Color32.BLACK : Color32 := { r := 0, g := 0, b := 0, a := 255 }

/-- Stroke, egui `Stroke` (width is `f32`, modelled as `Rat`). -/
structure Stroke where
  width : Rat
  color : Color32
deriving DecidableEq

/-- Per widget state visuals, egui `WidgetVisuals`.  Only the foreground
stroke is touched by the code; `bg_fill` stands in for the remaining
untouched fields. -/
structure WidgetVisuals where
  bg_fill : Color32
  fg_stroke : Stroke
deriving DecidableEq

/-- Widget visuals per interaction state, egui `style::Widgets`.  The field
named `open` in egui is rendered `open_` because `open` is a Lean keyword. -/
structure Widgets where
  noninteractive : WidgetVisuals
  inactive : WidgetVisuals
  hovered : WidgetVisuals
  active : WidgetVisuals
  open_ : WidgetVisuals
deriving DecidableEq

/-- Visual palette, egui `Visuals`.  `dark_mode` and `widgets` are the fields
relevant to the source; the remaining egui fields do not depend on anything
the code writes and are not modelled. -/
structure Visuals where
  dark_mode : Bool
  widgets : Widgets
deriving DecidableEq

/-- Style, egui `Style`.  `visuals` is the field the source overrides;
`animation_time` stands in for the remaining fields that
`..Style::default()` copies from the default style. -/
structure Style where
  visuals : Visuals
  animation_time : Rat
deriving DecidableEq

/-- Font family, egui `FontFamily`. -/
inductive FontFamily where
  | monospace
  | proportional
deriving DecidableEq

/-- Text style, egui `TextStyle`. -/
inductive TextStyle where
  | small
  | body
  | button
  | heading
  | monospace
deriving DecidableEq

/-- The three font blobs embedded with `include_bytes!`; their binary content
is irrelevant, only their identity matters. -/
inductive FontBytes where
  | proggyClean
  | ubuntuRegular
  | ubuntuLight
deriving DecidableEq

/-- Logical font name used as a `font_data` key, `"ProggyClean"`. -/
def proggyCleanName : String := "ProggyClean"

/-- Logical font name used as a `font_data` key, `"Ubuntu-Regular"`. -/
def ubuntuRegularName : String := "Ubuntu-Regular"

/-- Logical font name used as a `font_data` key, `"Ubuntu-Light"`. -/
def ubuntuLightName : String := "Ubuntu-Light"

/-- Font configuration, egui `FontDefinitions`: font blobs by logical name,
fallback name lists by family, and (family, size) by text style.  The egui
`BTreeMap`s are modelled extensionally as functions into `Option`. -/
structure FontDefinitions where
  font_data : String → Option FontBytes
  fonts_for_family : FontFamily → Option (List String)
  family_and_size : TextStyle → Option (FontFamily × Rat)

/-- Functional update of a map at one key. -/
def updF {α β : Type} [DecidableEq α] (f : α → β) (k : α) (v : β) : α → β :=
  fun x => if x = k then v else f x

/-- The mutable state behind the egui context handle (`CtxRef`): the ambient
style and the installed font definitions.  `set_style` and `set_fonts`
overwrite the respective component. -/
structure Ctx where
  style : Style
  fonts : FontDefinitions

/-- Stock egui values the source consumes; external collaborator data, hence
parameters of the whole development. -/
structure EguiEnv where
  visualsDark : Visuals
  visualsLight : Visuals
  styleDefault : Style
  fontDefinitionsDefault : FontDefinitions

/-- System theme, winit `Theme`. -/
inductive Theme where
  | dark
  | light
deriving DecidableEq

/-- Screen metadata, egui_wgpu_backend `ScreenDescriptor`. -/
structure ScreenDescriptor where
  physical_width : Nat
  physical_height : Nat
  scale_factor : Rat
deriving DecidableEq

/-- One tessellated primitive batch, egui `ClippedMesh`; content abstracted
to an identity. -/
structure ClippedMesh where
  id : Nat
deriving DecidableEq

/-- One abstract toolkit draw command as returned by `end_frame`. -/
structure PaintCmd where
  id : Nat
deriving DecidableEq

/-- State of `Framework` from `src/framework.rs` (fields `start_time`,
`platform`, `rpass` and `gui` carry no modelled state; the context state
owned through `platform.context()` appears as `ctx`). -/
structure Framework where
  ctx : Ctx
  screen_descriptor : ScreenDescriptor
  paint_jobs : List ClippedMesh
  theme : Option Theme

/-- Font name written into slot 0 of the Proportional fallback list for each
theme (`framework.rs` lines 155 to 158). -/
def themeProportionalFont : Theme → String
  | Theme.dark => ubuntuLightName
  | Theme.light => ubuntuRegularName

/-- Visual palette built by `update_theme` (`framework.rs` lines 133 to 143):
the stock palette of the theme, except that in Light mode the noninteractive
and inactive foreground stroke colors are overridden to solid black. -/
def themeVisuals (env : EguiEnv) : Theme → Visuals
  | Theme.dark => env.visualsDark
  | Theme.light =>
    let v := env.visualsLight
    { v with widgets :=
      { v.widgets with
        noninteractive :=
          { v.widgets.noninteractive with
            fg_stroke :=
              { v.widgets.noninteractive.fg_stroke with color := Color32.BLACK } }
        inactive :=
          { v.widgets.inactive with
            fg_stroke :=
              { v.widgets.inactive.fg_stroke with color := Color32.BLACK } } } }

/-- Style built by `update_theme` (`framework.rs` lines 132 to 145): the
theme visuals over `..Style::default()`. -/
def themeStyle (env : EguiEnv) (theme : Theme) : Style :=
  { env.styleDefault with visuals := themeVisuals env theme }

/-- `Framework::update_theme` (`framework.rs` lines 129 to 162).  `take()`
consumes the pending theme; the style is installed with `set_style`; the
current font definitions are cloned, slot 0 of the Proportional fallback
list is replaced when the family is present, and the result is installed
with `set_fonts`.  Rust `font[0] = name` panics on an empty vector; it is
modelled by `List.set 0`, which agrees whenever the list is nonempty, and
theorems about the slot carry a nonemptiness hypothesis. -/
def Framework.update_theme (env : EguiEnv) (fw : Framework) : Framework :=
  match fw.theme with
  | none => fw
  | some theme =>
    let style := themeStyle env theme
    let ctx1 : Ctx := { fw.ctx with style := style }
    let fonts := ctx1.fonts
    let fonts :=
      match fonts.fonts_for_family FontFamily.proportional with
      | some font =>
        let ff :=
          updF fonts.fonts_for_family FontFamily.proportional
            (some (font.set 0 (themeProportionalFont theme)))
        { fonts with fonts_for_family := ff }
      | none => fonts
    { fw with theme := none, ctx := { ctx1 with fonts := fonts } }

/-- `Framework::prepare` (`framework.rs` lines 77 to 93): update time and
begin the toolkit frame (no modelled state), reconcile the theme, let the
GUI content populate the frame from the context it observes, end the frame
and tessellate the resulting paint commands into `paint_jobs`, overwriting
the previous buffer. -/
def Framework.prepare (env : EguiEnv) (fw : Framework)
    (gui : Ctx → List PaintCmd)
    (tess : Ctx → List PaintCmd → List ClippedMesh) : Framework :=
  let fw1 := fw.update_theme env
  let paint_commands := gui fw1.ctx
  { fw1 with paint_jobs := tess fw1.ctx paint_commands }

/-- `Framework::resize` (`framework.rs` lines 66 to 69). -/
def Framework.resize (fw : Framework) (width height : Nat) : Framework :=
  { fw with screen_descriptor :=
      { fw.screen_descriptor with
        physical_width := width, physical_height := height } }

/-- `Framework::scale_factor` (`framework.rs` lines 72 to 74). -/
def Framework.scale_factor (fw : Framework) (sf : Rat) : Framework :=
  { fw with screen_descriptor :=
      { fw.screen_descriptor with scale_factor := sf } }

/-- `Framework::change_theme` (`framework.rs` lines 124 to 126). -/
def Framework.change_theme (fw : Framework) (theme : Theme) : Framework :=
  { fw with theme := some theme }

/-- Free function `install_fonts` (`framework.rs` lines 166 to 198): start
from `FontDefinitions::default()`, insert the three embedded blobs under
their fixed logical names, append to the Monospace and Proportional fallback
lists when present, override the Heading size to 16, install with
`set_fonts`.  In Rust, `heading.1` is the second tuple component (the size). -/
def install_fonts (env : EguiEnv) (ctx : Ctx) : Ctx :=
  let fonts := env.fontDefinitionsDefault
  let fd :=
    updF
      (updF
        (updF fonts.font_data proggyCleanName (some FontBytes.proggyClean))
        ubuntuRegularName (some FontBytes.ubuntuRegular))
      ubuntuLightName (some FontBytes.ubuntuLight)
  let fonts := { fonts with font_data := fd }
  let fonts :=
    match fonts.fonts_for_family FontFamily.monospace with
    | some font =>
      let ff :=
        updF fonts.fonts_for_family FontFamily.monospace
          (some (font ++ [proggyCleanName, ubuntuLightName]))
      { fonts with fonts_for_family := ff }
    | none => fonts
  let fonts :=
    match fonts.fonts_for_family FontFamily.proportional with
    | some font =>
      let ff :=
        updF fonts.fonts_for_family FontFamily.proportional
          (some (font ++ [ubuntuRegularName]))
      { fonts with fonts_for_family := ff }
    | none => fonts
  let fonts :=
    match fonts.family_and_size TextStyle.heading with
    | some heading =>
      let fs :=
        updF fonts.family_and_size TextStyle.heading
          (some (heading.1, 16))
      { fonts with family_and_size := fs }
    | none => fonts
  { ctx with fonts := fonts }

/-- `Framework::new` (`framework.rs` lines 25 to 58): the fresh platform
context carries the stock default style and font definitions; `install_fonts`
runs on it; `paint_jobs` starts empty and the constructor supplied theme is
stored as pending. -/
def Framework.new (env : EguiEnv) (width height : Nat) (sf : Rat)
    (theme : Theme) : Framework :=
  let ctx0 : Ctx := { style := env.styleDefault, fonts := env.fontDefinitionsDefault }
  let ctx := install_fonts env ctx0
  { ctx := ctx
    screen_descriptor :=
      { physical_width := width, physical_height := height, scale_factor := sf }
    paint_jobs := []
    theme := some theme }

/-- Observable effects of the redraw branch of the event loop, in program
order (`main.rs` lines 58 to 79). -/
inductive RedrawAction where
  | framework_prepare
  | gpu_prepare
  | log_error (msg : String)
  | framework_render
  | queue_submit
deriving DecidableEq

/-- Event loop control flow, winit `ControlFlow` (only the values the
program writes). -/
inductive ControlFlow where
  | poll
  | exit
deriving DecidableEq

/-- Result of one handled `RedrawRequested` event. -/
structure RedrawOutcome where
  framework : Framework
  actions : List RedrawAction
  control : Option ControlFlow

/-- The `RedrawRequested` branch of the event loop (`main.rs` lines 58 to
79): `framework.prepare()` always runs first; then `gpu.prepare()`; on error
the error is logged by `map_err`, control flow is set to `Exit` and the
handler returns before rendering; on success egui is rendered and the
encoder submitted, leaving control flow untouched (`none`). -/
def handleRedraw (env : EguiEnv) (fw : Framework)
    (gui : Ctx → List PaintCmd)
    (tess : Ctx → List PaintCmd → List ClippedMesh)
    (gpu_result : Except String Nat) : RedrawOutcome :=
  let fw1 := fw.prepare env gui tess
  match gpu_result with
  | Except.error e =>
    { framework := fw1
      actions := [RedrawAction.framework_prepare, RedrawAction.gpu_prepare,
        RedrawAction.log_error e]
      control := some ControlFlow.exit }
  | Except.ok _ =>
    { framework := fw1
      actions := [RedrawAction.framework_prepare, RedrawAction.gpu_prepare,
        RedrawAction.framework_render, RedrawAction.queue_submit]
      control := none }

/-! ## Basic lemmas about the embedded operations -/

lemma update_theme_of_none (env : EguiEnv) (fw : Framework) (h : fw.theme = none) :
    fw.update_theme env = fw := by
  simp [Framework.update_theme, h]

lemma update_theme_theme_none (env : EguiEnv) (fw : Framework) :
    (fw.update_theme env).theme = none := by
  cases h : fw.theme with
  | none => simp [Framework.update_theme, h]
  | some th => simp only [Framework.update_theme, h]

lemma update_theme_style (env : EguiEnv) (fw : Framework) (th : Theme)
    (h : fw.theme = some th) :
    (fw.update_theme env).ctx.style = themeStyle env th := by
  simp only [Framework.update_theme, h]

lemma update_theme_screen (env : EguiEnv) (fw : Framework) :
    (fw.update_theme env).screen_descriptor = fw.screen_descriptor := by
  cases h : fw.theme with
  | none => simp [Framework.update_theme, h]
  | some th => simp only [Framework.update_theme, h]

lemma update_theme_fonts (env : EguiEnv) (fw : Framework) (th : Theme)
    (l : List String) (hth : fw.theme = some th)
    (hl : fw.ctx.fonts.fonts_for_family FontFamily.proportional = some l) :
    (fw.update_theme env).ctx.fonts.fonts_for_family FontFamily.proportional
      = some (l.set 0 (themeProportionalFont th)) := by
  simp [Framework.update_theme, hth, hl, updF]

lemma prepare_ctx_eq (env : EguiEnv) (fw : Framework)
    (gui : Ctx → List PaintCmd) (tess : Ctx → List PaintCmd → List ClippedMesh) :
    (fw.prepare env gui tess).ctx = (fw.update_theme env).ctx := rfl

lemma prepare_theme_eq (env : EguiEnv) (fw : Framework)
    (gui : Ctx → List PaintCmd) (tess : Ctx → List PaintCmd → List ClippedMesh) :
    (fw.prepare env gui tess).theme = (fw.update_theme env).theme := rfl

lemma prepare_paint_jobs_eq (env : EguiEnv) (fw : Framework)
    (gui : Ctx → List PaintCmd) (tess : Ctx → List PaintCmd → List ClippedMesh) :
    (fw.prepare env gui tess).paint_jobs
      = tess ((fw.update_theme env).ctx) (gui ((fw.update_theme env).ctx)) := rfl

lemma head_set_zero {α : Type} (l : List α) (x : α) (h : l ≠ []) :
    (l.set 0 x).head? = some x := by
  cases l with
  | nil => exact absurd rfl h
  | cons a t => rfl

/-! ## Lemmas about install_fonts -/

lemma install_fonts_style_eq (env : EguiEnv) (ctx : Ctx) :
    (install_fonts env ctx).style = ctx.style := rfl

lemma install_fonts_font_data (env : EguiEnv) (ctx : Ctx) :
    (install_fonts env ctx).fonts.font_data
      = updF
          (updF
            (updF env.fontDefinitionsDefault.font_data proggyCleanName
              (some FontBytes.proggyClean))
            ubuntuRegularName (some FontBytes.ubuntuRegular))
          ubuntuLightName (some FontBytes.ubuntuLight) := by
  cases hm : env.fontDefinitionsDefault.fonts_for_family FontFamily.monospace <;>
    cases hp : env.fontDefinitionsDefault.fonts_for_family FontFamily.proportional <;>
      cases hh : env.fontDefinitionsDefault.family_and_size TextStyle.heading <;>
        simp [install_fonts, updF, hm, hp, hh]

lemma install_fonts_monospace (env : EguiEnv) (ctx : Ctx) (lm : List String)
    (h : env.fontDefinitionsDefault.fonts_for_family FontFamily.monospace = some lm) :
    (install_fonts env ctx).fonts.fonts_for_family FontFamily.monospace
      = some (lm ++ [proggyCleanName, ubuntuLightName]) := by
  cases hp : env.fontDefinitionsDefault.fonts_for_family FontFamily.proportional <;>
    cases hh : env.fontDefinitionsDefault.family_and_size TextStyle.heading <;>
      simp [install_fonts, updF, h, hp, hh]

lemma install_fonts_proportional (env : EguiEnv) (ctx : Ctx) (lp : List String)
    (h : env.fontDefinitionsDefault.fonts_for_family FontFamily.proportional = some lp) :
    (install_fonts env ctx).fonts.fonts_for_family FontFamily.proportional
      = some (lp ++ [ubuntuRegularName]) := by
  cases hm : env.fontDefinitionsDefault.fonts_for_family FontFamily.monospace <;>
    cases hh : env.fontDefinitionsDefault.family_and_size TextStyle.heading <;>
      simp [install_fonts, updF, h, hm, hh]

lemma install_fonts_heading (env : EguiEnv) (ctx : Ctx) (fam : FontFamily) (sz : Rat)
    (h : env.fontDefinitionsDefault.family_and_size TextStyle.heading = some (fam, sz)) :
    (install_fonts env ctx).fonts.family_and_size TextStyle.heading
      = some (fam, 16) := by
  cases hm : env.fontDefinitionsDefault.fonts_for_family FontFamily.monospace <;>
    cases hp : env.fontDefinitionsDefault.fonts_for_family FontFamily.proportional <;>
      simp [install_fonts, updF, h, hm, hp]

lemma install_fonts_family_and_size_other (env : EguiEnv) (ctx : Ctx)
    (ts : TextStyle) (h : ts ≠ TextStyle.heading) :
    (install_fonts env ctx).fonts.family_and_size ts
      = env.fontDefinitionsDefault.family_and_size ts := by
  cases hm : env.fontDefinitionsDefault.fonts_for_family FontFamily.monospace <;>
    cases hp : env.fontDefinitionsDefault.fonts_for_family FontFamily.proportional <;>
      cases hh : env.fontDefinitionsDefault.family_and_size TextStyle.heading <;>
        simp [install_fonts, updF, h, hm, hp, hh]

/-! ## Concrete sample data used by the witness theorems -/

/-- Sample grey, standing in for a stock palette foreground. -/
def sampleGrey : Color32 := { r := 140, g := 140, b := 140, a := 255 }

/-- Sample widget visuals with a grey foreground stroke. -/
def sampleWidget : WidgetVisuals :=
  { bg_fill := { r := 30, g := 30, b := 30, a := 255 }
    fg_stroke := { width := 1, color := sampleGrey } }

/-- Sample widget visuals table. -/
def sampleWidgets : Widgets :=
  { noninteractive := sampleWidget
    inactive := sampleWidget
    hovered := sampleWidget
    active := sampleWidget
    open_ := sampleWidget }

/-- Sample stock dark palette. -/
def sampleVisualsDark : Visuals := { dark_mode := true, widgets := sampleWidgets }

/-- Sample stock light palette (grey foregrounds, as in egui). -/
def sampleVisualsLight : Visuals := { dark_mode := false, widgets := sampleWidgets }

/-- Sample stock font configuration: each family has a fallback list and the
Heading text style has a size, as in egui `FontDefinitions::default()`. -/
def sampleFontDefaults : FontDefinitions :=
  { font_data := fun _ => none
    fonts_for_family := fun fam =>
      match fam with
      | FontFamily.monospace => some [proggyCleanName]
      | FontFamily.proportional => some [ubuntuLightName]
    family_and_size := fun ts =>
      match ts with
      | TextStyle.heading => some (FontFamily.proportional, 20)
      | _ => none }

/-- Sample stock egui environment. -/
def sampleEnv : EguiEnv :=
  { visualsDark := sampleVisualsDark
    visualsLight := sampleVisualsLight
    styleDefault := { visuals := sampleVisualsLight, animation_time := 1 }
    fontDefinitionsDefault := sampleFontDefaults }

/-- Sample context as a fresh platform would hold it. -/
def sampleCtx : Ctx :=
  { style := sampleEnv.styleDefault, fonts := sampleFontDefaults }

/-- Sample GUI content producing one paint command. -/
def sampleGui : Ctx → List PaintCmd := fun _ => [{ id := 1 }]

/-- Sample tessellation mapping each command to one mesh. -/
def sampleTess : Ctx → List PaintCmd → List ClippedMesh :=
  fun _ cmds => cmds.map fun c => { id := c.id }

/-- Sample framework built like `main.rs` does: 800 by 600, scale 1, Dark. -/
def sampleFw : Framework := Framework.new sampleEnv 800 600 1 Theme.dark

/-! ## Claim theorems -/

/-- Claim C2: after `update_theme` applies the Light theme, the style
installed into the context has solid black noninteractive and inactive
foreground stroke colors, for every stock light palette `env.visualsLight`;
after the Dark theme, the style's visuals are exactly the stock dark palette,
unmodified. -/
theorem light_black_foreground_dark_stock (env : EguiEnv) (fw : Framework) :
    ((fw.change_theme Theme.light).update_theme env).ctx.style.visuals.widgets.noninteractive.fg_stroke.color
        = Color32.BLACK ∧
    ((fw.change_theme Theme.light).update_theme env).ctx.style.visuals.widgets.inactive.fg_stroke.color
        = Color32.BLACK ∧
    ((fw.change_theme Theme.dark).update_theme env).ctx.style.visuals = env.visualsDark := by
  have hl := update_theme_style env (fw.change_theme Theme.light) Theme.light rfl
  have hd := update_theme_style env (fw.change_theme Theme.dark) Theme.dark rfl
  refine ⟨?_, ?_, ?_⟩
  · rw [hl]; rfl
  · rw [hl]; rfl
  · rw [hd]; rfl

/-- Claim C4: each `prepare` fully replaces the paint job buffer with the
tessellation of the current frame's draw commands: after two consecutive
`prepare` calls, the buffer equals the second frame's tessellation, with no
dependence on (hence no primitive carried over from) the first frame's
content `gui1` / `tess1`. -/
theorem prepare_replaces_paint_jobs (env : EguiEnv) (fw : Framework)
    (gui1 gui2 : Ctx → List PaintCmd)
    (tess1 tess2 : Ctx → List PaintCmd → List ClippedMesh) :
    ((fw.prepare env gui1 tess1).prepare env gui2 tess2).paint_jobs
      = tess2 ((fw.update_theme env).ctx) (gui2 ((fw.update_theme env).ctx)) := by
  have h1 : (fw.prepare env gui1 tess1).theme = none := by
    rw [prepare_theme_eq]; exact update_theme_theme_none env fw
  rw [prepare_paint_jobs_eq, update_theme_of_none env _ h1, prepare_ctx_eq]

/-- Claim C5: `resize` stores width and height verbatim with no validation;
after a sequence of resize calls the descriptor holds exactly the last
call's values, and a direct `resize 0 0` stores 0 and 0. -/
theorem resize_stores_verbatim (fw : Framework) (ws : List (Nat × Nat))
    (w h : Nat) :
    (fw.resize w h).screen_descriptor.physical_width = w ∧
    (fw.resize w h).screen_descriptor.physical_height = h ∧
    (((ws ++ [(w, h)]).foldl (fun f p => f.resize p.1 p.2) fw).screen_descriptor.physical_width
        = w) ∧
    (((ws ++ [(w, h)]).foldl (fun f p => f.resize p.1 p.2) fw).screen_descriptor.physical_height
        = h) ∧
    (fw.resize 0 0).screen_descriptor.physical_width = 0 ∧
    (fw.resize 0 0).screen_descriptor.physical_height = 0 := by
  refine ⟨rfl, rfl, ?_, ?_, rfl, rfl⟩ <;>
    simp [List.foldl_append, Framework.resize]

/-- Claim C9: `resize` changes only the descriptor's physical width and
height, leaving the scale factor, the pending theme, the paint job buffer
and the context untouched; `scale_factor` changes only the descriptor's
scale factor, leaving width, height, pending theme, paint job buffer and
context untouched. -/
theorem resize_and_scale_factor_frame (fw : Framework) (w h : Nat) (s : Rat) :
    (fw.resize w h).screen_descriptor.physical_width = w ∧
    (fw.resize w h).screen_descriptor.physical_height = h ∧
    (fw.resize w h).screen_descriptor.scale_factor
        = fw.screen_descriptor.scale_factor ∧
    (fw.resize w h).theme = fw.theme ∧
    (fw.resize w h).paint_jobs = fw.paint_jobs ∧
    (fw.resize w h).ctx = fw.ctx ∧
    (fw.scale_factor s).screen_descriptor.scale_factor = s ∧
    (fw.scale_factor s).screen_descriptor.physical_width
        = fw.screen_descriptor.physical_width ∧
    (fw.scale_factor s).screen_descriptor.physical_height
        = fw.screen_descriptor.physical_height ∧
    (fw.scale_factor s).theme = fw.theme ∧
    (fw.scale_factor s).paint_jobs = fw.paint_jobs ∧
    (fw.scale_factor s).ctx = fw.ctx :=
  ⟨rfl, rfl, rfl, rfl, rfl, rfl, rfl, rfl, rfl, rfl, rfl, rfl⟩

/-- Claim C8: when the GPU collaborator's `prepare` fails during a redraw,
the error is logged, control flow is set to exit, the GPU prepare is not
retried (it appears exactly once in the action trace), and neither a render
nor a submit happens for that frame. -/
theorem gpu_prepare_error_exits (env : EguiEnv) (fw : Framework)
    (gui : Ctx → List PaintCmd) (tess : Ctx → List PaintCmd → List ClippedMesh)
    (msg : String) :
    (handleRedraw env fw gui tess (Except.error msg)).control = some ControlFlow.exit ∧
    (handleRedraw env fw gui tess (Except.error msg)).actions
        = [RedrawAction.framework_prepare, RedrawAction.gpu_prepare,
           RedrawAction.log_error msg] ∧
    RedrawAction.framework_render ∉ (handleRedraw env fw gui tess (Except.error msg)).actions ∧
    RedrawAction.queue_submit ∉ (handleRedraw env fw gui tess (Except.error msg)).actions ∧
    (handleRedraw env fw gui tess (Except.error msg)).actions.count RedrawAction.gpu_prepare
        = 1 := by
  refine ⟨rfl, rfl, ?_, ?_, ?_⟩ <;> simp [handleRedraw, List.count_cons]

/-- Claim C1: for any sequence of `change_theme` calls ending in theme `t`,
followed by exactly one `prepare`, the style applied to the UI context is the
style of `t` (the last requested theme), the pending theme is `none`
afterwards, and a second `prepare` without an intervening `change_theme`
leaves the context (style and fonts alike) unchanged. -/
theorem last_requested_theme_wins (env : EguiEnv) (fw : Framework)
    (init : List Theme) (t : Theme)
    (gui gui2 : Ctx → List PaintCmd)
    (tess tess2 : Ctx → List PaintCmd → List ClippedMesh) :
    (((init ++ [t]).foldl Framework.change_theme fw).prepare env gui tess).ctx.style
        = themeStyle env t ∧
    (((init ++ [t]).foldl Framework.change_theme fw).prepare env gui tess).theme
        = none ∧
    ((((init ++ [t]).foldl Framework.change_theme fw).prepare env gui tess).prepare
          env gui2 tess2).ctx
        = (((init ++ [t]).foldl Framework.change_theme fw).prepare env gui tess).ctx := by
  have hfold : (init ++ [t]).foldl Framework.change_theme fw
      = Framework.change_theme (init.foldl Framework.change_theme fw) t := by
    simp [List.foldl_append]
  have hth : ((init ++ [t]).foldl Framework.change_theme fw).theme = some t := by
    rw [hfold]; rfl
  refine ⟨?_, ?_, ?_⟩
  · rw [prepare_ctx_eq]; exact update_theme_style env _ t hth
  · rw [prepare_theme_eq]; exact update_theme_theme_none env _
  · have h1 : (((init ++ [t]).foldl Framework.change_theme fw).prepare env gui tess).theme
        = none := by
      rw [prepare_theme_eq]; exact update_theme_theme_none env _
    rw [prepare_ctx_eq, update_theme_of_none env _ h1]

/-- Claim C3: when `prepare` applies a pending theme and the Proportional
fallback list is present and nonempty, its first entry afterwards is the
weight-appropriate font name (the Light weight name for Dark, the Regular
weight name for Light), the whole updated list is written back into the
context's font definitions, and the two weight names are the fixed strings
of the source. -/
theorem prepare_sets_proportional_weight (env : EguiEnv) (fw : Framework)
    (th : Theme) (gui : Ctx → List PaintCmd)
    (tess : Ctx → List PaintCmd → List ClippedMesh) (l : List String)
    (hth : fw.theme = some th)
    (hl : fw.ctx.fonts.fonts_for_family FontFamily.proportional = some l)
    (hne : l ≠ []) :
    (fw.prepare env gui tess).ctx.fonts.fonts_for_family FontFamily.proportional
        = some (l.set 0 (themeProportionalFont th)) ∧
    ((fw.prepare env gui tess).ctx.fonts.fonts_for_family FontFamily.proportional).bind
        List.head? = some (themeProportionalFont th) ∧
    themeProportionalFont Theme.dark = ubuntuLightName ∧
    themeProportionalFont Theme.light = ubuntuRegularName := by
  have hf := update_theme_fonts env fw th l hth hl
  refine ⟨?_, ?_, rfl, rfl⟩
  · rw [prepare_ctx_eq]; exact hf
  · rw [prepare_ctx_eq, hf]; exact head_set_zero l _ hne

/-- Witness for C3 at the sample framework (pending Dark theme, Proportional
list `[Ubuntu-Light, Ubuntu-Regular]` after font installation). -/
theorem prepare_sets_proportional_weight_witness :
    ((sampleFw.prepare sampleEnv sampleGui sampleTess).ctx.fonts.fonts_for_family
        FontFamily.proportional).bind List.head? = some ubuntuLightName ∧
    (sampleFw.prepare sampleEnv sampleGui sampleTess).ctx.fonts.fonts_for_family
        FontFamily.proportional = some [ubuntuLightName, ubuntuRegularName] := by
  have h := prepare_sets_proportional_weight sampleEnv sampleFw Theme.dark
    sampleGui sampleTess [ubuntuLightName, ubuntuRegularName] rfl rfl (by decide)
  exact ⟨h.2.1, h.1⟩

/-- Claim C6: within `prepare`, the theme reconciliation runs before the UI
content callback: the content callback and the tessellation both observe the
reconciled context, whose style is the fully applied style of the pending
theme and whose pending theme is already consumed, so the frame is never
built from a half-applied or stale theme state. -/
theorem theme_reconciled_before_content (env : EguiEnv) (fw : Framework)
    (th : Theme) (gui : Ctx → List PaintCmd)
    (tess : Ctx → List PaintCmd → List ClippedMesh)
    (h : fw.theme = some th) :
    (fw.prepare env gui tess).paint_jobs
        = tess ((fw.update_theme env).ctx) (gui ((fw.update_theme env).ctx)) ∧
    ((fw.update_theme env).ctx).style = themeStyle env th ∧
    (fw.update_theme env).theme = none :=
  ⟨prepare_paint_jobs_eq env fw gui tess, update_theme_style env fw th h,
    update_theme_theme_none env fw⟩

/-- Witness for C6 at the sample framework (pending Dark theme). -/
theorem theme_reconciled_before_content_witness :
    (sampleFw.prepare sampleEnv sampleGui sampleTess).paint_jobs
        = sampleTess ((sampleFw.update_theme sampleEnv).ctx)
            (sampleGui ((sampleFw.update_theme sampleEnv).ctx)) ∧
    ((sampleFw.update_theme sampleEnv).ctx).style = themeStyle sampleEnv Theme.dark ∧
    (sampleFw.update_theme sampleEnv).theme = none :=
  theme_reconciled_before_content sampleEnv sampleFw Theme.dark sampleGui
    sampleTess rfl

/-- Claim C7: `install_fonts` inserts exactly the three embedded font blobs
under their fixed logical names (every other `font_data` key is unchanged),
appends the new names to the Monospace and Proportional fallback lists,
overrides the Heading text style size to the fixed value 16 (every other
text style is unchanged), and installs the result into the context without
touching the style. -/
theorem install_fonts_spec (env : EguiEnv) (ctx : Ctx) :
    (install_fonts env ctx).fonts.font_data proggyCleanName
        = some FontBytes.proggyClean ∧
    (install_fonts env ctx).fonts.font_data ubuntuRegularName
        = some FontBytes.ubuntuRegular ∧
    (install_fonts env ctx).fonts.font_data ubuntuLightName
        = some FontBytes.ubuntuLight ∧
    (∀ s : String, s ≠ proggyCleanName → s ≠ ubuntuRegularName →
      s ≠ ubuntuLightName →
      (install_fonts env ctx).fonts.font_data s
        = env.fontDefinitionsDefault.font_data s) ∧
    (∀ lm : List String,
      env.fontDefinitionsDefault.fonts_for_family FontFamily.monospace = some lm →
      (install_fonts env ctx).fonts.fonts_for_family FontFamily.monospace
        = some (lm ++ [proggyCleanName, ubuntuLightName])) ∧
    (∀ lp : List String,
      env.fontDefinitionsDefault.fonts_for_family FontFamily.proportional = some lp →
      (install_fonts env ctx).fonts.fonts_for_family FontFamily.proportional
        = some (lp ++ [ubuntuRegularName])) ∧
    (∀ (fam : FontFamily) (sz : Rat),
      env.fontDefinitionsDefault.family_and_size TextStyle.heading = some (fam, sz) →
      (install_fonts env ctx).fonts.family_and_size TextStyle.heading
        = some (fam, 16)) ∧
    (∀ ts : TextStyle, ts ≠ TextStyle.heading →
      (install_fonts env ctx).fonts.family_and_size ts
        = env.fontDefinitionsDefault.family_and_size ts) ∧
    (install_fonts env ctx).style = ctx.style := by
  refine ⟨?_, ?_, ?_, ?_, ?_, ?_, ?_, ?_, rfl⟩
  · rw [install_fonts_font_data]
    simp [updF, proggyCleanName, ubuntuRegularName, ubuntuLightName]
  · rw [install_fonts_font_data]
    simp [updF, proggyCleanName, ubuntuRegularName, ubuntuLightName]
  · rw [install_fonts_font_data]
    simp [updF]
  · intro s h1 h2 h3
    rw [install_fonts_font_data]
    simp [updF, h1, h2, h3]
  · intro lm hm
    exact install_fonts_monospace env ctx lm hm
  · intro lp hp
    exact install_fonts_proportional env ctx lp hp
  · intro fam sz hh
    exact install_fonts_heading env ctx fam sz hh
  · intro ts hts
    exact install_fonts_family_and_size_other env ctx ts hts

/-- Witness for C7 at the sample environment and context. -/
theorem install_fonts_spec_witness :
    (install_fonts sampleEnv sampleCtx).fonts.font_data proggyCleanName
        = some FontBytes.proggyClean ∧
    (install_fonts sampleEnv sampleCtx).fonts.fonts_for_family FontFamily.monospace
        = some ([proggyCleanName] ++ [proggyCleanName, ubuntuLightName]) ∧
    (install_fonts sampleEnv sampleCtx).fonts.fonts_for_family FontFamily.proportional
        = some ([ubuntuLightName] ++ [ubuntuRegularName]) ∧
    (install_fonts sampleEnv sampleCtx).fonts.family_and_size TextStyle.heading
        = some (FontFamily.proportional, 16) := by
  have h := install_fonts_spec sampleEnv sampleCtx
  exact ⟨h.1, h.2.2.2.2.1 [proggyCleanName] rfl,
    h.2.2.2.2.2.1 [ubuntuLightName] rfl,
    h.2.2.2.2.2.2.1 FontFamily.proportional 20 rfl⟩

/-- Claim C10: a newly constructed framework starts with the constructor
supplied theme pending, so the first `prepare` after construction applies
that theme's style and its Proportional font weight assignment even though
`change_theme` was never called, and consumes the pending theme. -/
theorem new_starts_with_pending_theme (env : EguiEnv) (w h : Nat) (sf : Rat)
    (th : Theme) (gui : Ctx → List PaintCmd)
    (tess : Ctx → List PaintCmd → List ClippedMesh) (lp : List String)
    (hp : env.fontDefinitionsDefault.fonts_for_family FontFamily.proportional
        = some lp) :
    (Framework.new env w h sf th).theme = some th ∧
    ((Framework.new env w h sf th).prepare env gui tess).ctx.style
        = themeStyle env th ∧
    ((Framework.new env w h sf th).prepare env gui tess).theme = none ∧
    (((Framework.new env w h sf th).prepare env gui tess).ctx.fonts.fonts_for_family
        FontFamily.proportional).bind List.head?
        = some (themeProportionalFont th) := by
  have hn : (Framework.new env w h sf th).theme = some th := rfl
  have hctx : (Framework.new env w h sf th).ctx.fonts.fonts_for_family
      FontFamily.proportional = some (lp ++ [ubuntuRegularName]) :=
    install_fonts_proportional env
      { style := env.styleDefault, fonts := env.fontDefinitionsDefault } lp hp
  refine ⟨hn, ?_, ?_, ?_⟩
  · rw [prepare_ctx_eq]; exact update_theme_style env _ th hn
  · rw [prepare_theme_eq]; exact update_theme_theme_none env _
  · rw [prepare_ctx_eq]
    have hf := update_theme_fonts env (Framework.new env w h sf th) th
      (lp ++ [ubuntuRegularName]) hn hctx
    rw [hf]
    exact head_set_zero _ _ (by simp)

/-- Witness for C10 at the sample environment (800 by 600, scale 1, Dark). -/
theorem new_starts_with_pending_theme_witness :
    (Framework.new sampleEnv 800 600 1 Theme.dark).theme = some Theme.dark ∧
    ((Framework.new sampleEnv 800 600 1 Theme.dark).prepare sampleEnv sampleGui
        sampleTess).ctx.style = themeStyle sampleEnv Theme.dark ∧
    ((Framework.new sampleEnv 800 600 1 Theme.dark).prepare sampleEnv sampleGui
        sampleTess).theme = none ∧
    (((Framework.new sampleEnv 800 600 1 Theme.dark).prepare sampleEnv sampleGui
        sampleTess).ctx.fonts.fonts_for_family FontFamily.proportional).bind
        List.head? = some (themeProportionalFont Theme.dark) :=
  new_starts_with_pending_theme sampleEnv 800 600 1 Theme.dark sampleGui
    sampleTess [ubuntuLightName] rfl
